import Mathlib

/-!
# A shallow embedding of the `nsq-in-rust` NSQ client

This development embeds the pure core of the `nsq-in-rust` repository in
Lean 4 and proves properties of the embedded code:

* the command encoder and frame decoder of `src/codec.rs`;
* the command headers and bodies of `src/command.rs`;
* the error taxonomy and `NsqError::is_fatal` of `src/error.rs`;
* the IDENTIFY-handshake frame dispatch, transport assembly and `auth`
  step of `src/conn/connection.rs`;
* the heartbeat multiplexer state machine of `src/conn/heartbeat.rs`;
* the producer request/reply step of `src/producer.rs`;
* the IDENTIFY JSON serialization of `src/config.rs`.

Conventions used throughout:

* Bytes are `Nat` values; where the Rust code casts to a machine integer
  the embedding reduces modulo the corresponding power of two.
* Rust functions that can `panic!` (via `unreachable!()`, `todo!()`, or
  the panicking `bytes::Buf` reads and `split_at`) are modelled with an
  explicit `panic`-like alternative (`Option` with `none` for a panic, or
  a dedicated `… .panics` constructor), never by silently totalizing.
* The asynchronous stream/sink machinery (`Poll::Pending`, wakers) is
  abstracted away: the underlying sink is modelled as always ready, so
  `ready!(…)` always succeeds.  Inbound I/O is modelled as a list of
  already-decoded items.
-/

/-! ## Bytes and big-endian integers -/

/-- A message body, `Vec<u8>` in the source (`type MessageBody = Vec<u8>`
in `src/command.rs`).  Bytes are `Nat`s. -/
abbrev MessageBody := List Nat

/-- Big-endian bytes of a `u32`, as written by `bytes::BufMut::put_u32`
after the source's `as u32` cast. -/
def u32be (n : Nat) : List Nat :=
  let m := n % 2 ^ 32
  [m / 2 ^ 24 % 256, m / 2 ^ 16 % 256, m / 2 ^ 8 % 256, m % 256]

/-- The big-endian value of a byte list (used by `get_u64` / `get_u16`). -/
def beVal (bytes : List Nat) : Nat :=
  bytes.foldl (fun acc b => acc * 256 + b % 256) 0

/-- UTF-8 encoding of one character, as produced by `str::as_bytes`. -/
def utf8EncodeChar (c : Char) : List Nat :=
  let n := c.toNat
  if n < 0x80 then [n]
  else if n < 0x800 then [0xC0 + n / 64, 0x80 + n % 64]
  else if n < 0x10000 then [0xE0 + n / 4096, 0x80 + n / 64 % 64, 0x80 + n % 64]
  else [0xF0 + n / 262144, 0x80 + n / 4096 % 64, 0x80 + n / 64 % 64, 0x80 + n % 64]

/-- The UTF-8 bytes of a string (`str::as_bytes`). -/
def strBytes (s : String) : List Nat :=
  s.data.flatMap utf8EncodeChar

/-! ## JSON values (`serde_json::Value`)

Numbers are modelled as integers: every number this client reads or
writes on the wire is an integer field. -/

inductive JsonValue where
  | null
  | bool (b : Bool)
  | num (n : Int)
  | str (s : String)
  | arr (xs : List JsonValue)
  | obj (fields : List (String × JsonValue))
  deriving Repr

/-- Field lookup in a JSON object (`serde_json::Value::get`). -/
def JsonValue.getField : JsonValue → String → Option JsonValue
  | .obj fields, k => fields.lookup k
  | _, _ => none

def hexDigit (n : Nat) : String :=
  String.singleton (if n < 10 then Char.ofNat (48 + n) else Char.ofNat (87 + n))

/-- JSON string escaping as performed by `serde_json`. -/
def jsonEscapeChar (c : Char) : String :=
  if c = '"' then "\\\""
  else if c = '\\' then "\\\\"
  else if c = '\n' then "\\n"
  else if c = '\r' then "\\r"
  else if c = '\t' then "\\t"
  else if c.toNat = 8 then "\\b"
  else if c.toNat = 12 then "\\f"
  else if c.toNat < 0x20 then "\\u00" ++ hexDigit (c.toNat / 16) ++ hexDigit (c.toNat % 16)
  else String.singleton c

def jsonQuote (s : String) : String :=
  "\"" ++ String.join (s.data.map jsonEscapeChar) ++ "\""

mutual

/-- Compact JSON printing (`serde_json::to_string`). -/
def jsonToString : JsonValue → String
  | .null => "null"
  | .bool b => cond b "true" "false"
  | .num n => toString n
  | .str s => jsonQuote s
  | .arr xs => "[" ++ jsonArrToString xs ++ "]"
  | .obj fs => "\x7b" ++ jsonObjToString fs ++ "\x7d"

def jsonArrToString : List JsonValue → String
  | [] => ""
  | [x] => jsonToString x
  | x :: y :: xs => jsonToString x ++ "," ++ jsonArrToString (y :: xs)

def jsonObjToString : List (String × JsonValue) → String
  | [] => ""
  | [(k, v)] => jsonQuote k ++ ":" ++ jsonToString v
  | (k, v) :: f :: fs => jsonQuote k ++ ":" ++ jsonToString v ++ "," ++ jsonObjToString (f :: fs)

end

/-! ## Commands (`src/command.rs`) -/

inductive Command where
  | Version
  | Identify (v : JsonValue)
  | Sub (topic channel : String)
  | Pub (topic : String) (body : MessageBody)
  | Mpub (topic : String) (msgs : List MessageBody)
  | Dpub (topic : String) (defer : Nat) (body : MessageBody)
  | Rdy (count : Nat)
  | Fin (id : String)
  | Req (id : String) (timeout : Nat)
  | Touch (id : String)
  | Close
  | Nop
  | Auth (secret : MessageBody)
  deriving Repr

inductive Body where
  | Binary (b : MessageBody)
  | Messages (msgs : List MessageBody)
  | Json (v : JsonValue)

/-- `Command::cmd` -/
def Command.cmd : Command → String
  | .Version => "  V2"
  | .Identify _ => "IDENTIFY"
  | .Sub _ _ => "SUB"
  | .Pub _ _ => "PUB"
  | .Mpub _ _ => "MPUB"
  | .Dpub _ _ _ => "DPUB"
  | .Rdy _ => "RDY"
  | .Fin _ => "FIN"
  | .Req _ _ => "REQ"
  | .Touch _ => "TOUCH"
  | .Close => "CLS"
  | .Nop => "NOP"
  | .Auth _ => "AUTH"

/-- `Command::header` -/
def Command.header (c : Command) : String :=
  match c with
  | .Version => c.cmd
  | .Identify _ => c.cmd ++ "\n"
  | .Sub topic channel => c.cmd ++ " " ++ topic ++ " " ++ channel ++ "\n"
  | .Pub topic _ => c.cmd ++ " " ++ topic ++ "\n"
  | .Mpub topic _ => c.cmd ++ " " ++ topic ++ "\n"
  | .Dpub topic defer _ => c.cmd ++ " " ++ topic ++ " " ++ toString defer ++ "\n"
  | .Rdy count => c.cmd ++ " " ++ toString count ++ "\n"
  | .Fin id => c.cmd ++ " " ++ id ++ "\n"
  | .Req id timeout => c.cmd ++ " " ++ id ++ " " ++ toString timeout ++ "\n"
  | .Touch id => c.cmd ++ " " ++ id ++ "\n"
  | .Close => c.cmd ++ "\n"
  | .Nop => c.cmd ++ "\n"
  | .Auth _ => c.cmd ++ "\n"

/-- `Command::body` -/
def Command.body : Command → Option Body
  | .Identify v => some (.Json v)
  | .Version => none
  | .Sub _ _ => none
  | .Rdy _ => none
  | .Fin _ => none
  | .Req _ _ => none
  | .Touch _ => none
  | .Close => none
  | .Nop => none
  | .Pub _ b => some (.Binary b)
  | .Dpub _ _ b => some (.Binary b)
  | .Auth b => some (.Binary b)
  | .Mpub _ msgs => some (.Messages msgs)

/-! ## Encoder (`src/codec.rs`, `impl Encoder<Command> for NsqCodec`) -/

def MESSAGE_ID_LEN : Nat := 16
def MESSAGE_SIZE_LEN : Nat := 4

/-- The bytes appended to the output buffer by `NsqCodec::encode`. -/
def NsqCodec.encode (cmd : Command) : List Nat :=
  strBytes cmd.header ++
    match cmd.body with
    | none => []
    | some (Body.Binary bin) => u32be bin.length ++ bin
    | some (Body.Messages msgs) =>
      let body_len := msgs.foldl (fun acc msg => acc + msg.length + MESSAGE_SIZE_LEN) 8
      u32be body_len ++ u32be msgs.length ++
        msgs.foldl (fun buf msg => buf ++ u32be msg.length ++ msg) []
    | some (Body.Json json) =>
      let body := strBytes (jsonToString json)
      u32be body.length ++ body

/-! ## Errors (`src/error.rs`) -/

/-- `NsqError { code, description }` -/
structure NsqError where
  code : String
  description : String
  deriving Repr

/-- `NsqError::is_fatal` -/
def NsqError.is_fatal (e : NsqError) : Bool :=
  match e.code with
  | "E_FIN_FAILED" | "E_REQ_FAILED" | "E_TOUCH_FAILED" => false
  | _ => true

/-- The `Error` enum.  `IoError` keeps the `io::ErrorKind` (or message)
as a string; TLS, compression and HTTP variants are omitted because no
embedded code constructs them. -/
inductive Error where
  | IoError (kind : String)
  | Utf8Error
  | JsonError
  | NsqErr (e : NsqError)
  | Auth (msg : String)
  deriving Repr

/-- `io::Error::from(io::ErrorKind::UnexpectedEof).into()`, the error the
connection code uses for unexpected frames and EOF. -/
def unexpectedEof : Error := .IoError "UnexpectedEof"

/-! ## Inbound frames (`src/codec.rs`) -/

/-- `NsqMsg`.  The `message_id` is kept as its UTF-8 bytes; the source
stores the decoded `String`, an equivalent representation for valid
UTF-8. -/
structure NsqMsg where
  timestamp : Nat
  attempts : Nat
  message_id : List Nat
  body : List Nat
  deriving Repr

/-- `RawResponse` -/
inductive RawResponse where
  | Ok
  | Heartbeat
  | CloseWait
  | Json (v : JsonValue)
  deriving Repr

/-- `NsqFramed` -/
inductive NsqFramed where
  | Response (r : RawResponse)
  | Error (e : NsqError)
  | Message (m : NsqMsg)
  deriving Repr

/-- Whether a byte sequence is valid UTF-8 (`str::from_utf8` succeeds).
Follows the standard UTF-8 acceptance automaton, rejecting overlong
forms, surrogates and values above U+10FFFF. -/
def utf8Valid : List Nat → Bool
  | [] => true
  | b :: rest =>
    if b < 0x80 then utf8Valid rest
    else if 0xC2 ≤ b && b ≤ 0xDF then
      match rest with
      | c :: rest' => 0x80 ≤ c && c ≤ 0xBF && utf8Valid rest'
      | [] => false
    else if 0xE0 ≤ b && b ≤ 0xEF then
      match rest with
      | c1 :: c2 :: rest' =>
        let lo1 := if b = 0xE0 then 0xA0 else 0x80
        let hi1 := if b = 0xED then 0x9F else 0xBF
        lo1 ≤ c1 && c1 ≤ hi1 && 0x80 ≤ c2 && c2 ≤ 0xBF && utf8Valid rest'
      | _ => false
    else if 0xF0 ≤ b && b ≤ 0xF4 then
      match rest with
      | c1 :: c2 :: c3 :: rest' =>
        let lo1 := if b = 0xF0 then 0x90 else 0x80
        let hi1 := if b = 0xF4 then 0x8F else 0xBF
        lo1 ≤ c1 && c1 ≤ hi1 && 0x80 ≤ c2 && c2 ≤ 0xBF &&
          0x80 ≤ c3 && c3 ≤ 0xBF && utf8Valid rest'
      | _ => false
    else false

/-- `decode_message` on the frame payload that follows the 4-byte frame
type word.  `none` models a panic: `get_u64` and `get_u16` panic when too
few bytes remain, and `split_at(MESSAGE_ID_LEN)` panics when the rest is
shorter than the id. -/
def decode_message (buf : List Nat) : Option (Except Error NsqMsg) :=
  if buf.length < 8 then none
  else
    let timestamp := beVal (buf.take 8)
    let buf1 := buf.drop 8
    if buf1.length < 2 then none
    else
      let attempts := beVal (buf1.take 2)
      let buf2 := buf1.drop 2
      if buf2.length < MESSAGE_ID_LEN then none
      else
        let head := buf2.take MESSAGE_ID_LEN
        let body := buf2.drop MESSAGE_ID_LEN
        if utf8Valid head then
          some (.ok { timestamp, attempts, message_id := head, body })
        else
          some (.error .Utf8Error)

/-! ## Heartbeat multiplexer (`src/conn/heartbeat.rs`)

The multiplexer is a state machine around the framed transport.  The
embedding records the externally observable actions (`Nop` writes,
flushes, deliveries to the caller) in a trace.  The underlying sink is
modelled as always ready, so every `ready!` succeeds at once. -/

/-- Caller-visible items (`conn::Response`). -/
inductive Response where
  | Ok
  | Err (e : NsqError)
  | Msg (m : NsqMsg)
  deriving Repr

/-- `Status` -/
inductive HbStatus where
  | Responding
  | Reading
  deriving Repr

/-- The mutable fields of `Heartbeat` other than the inner transport. -/
structure HbState where
  response_remaining : Nat
  status : HbStatus
  deriving Repr

/-- The state `Heartbeat::new` starts in. -/
def HbState.init : HbState := { response_remaining := 0, status := .Reading }

/-- Observable actions of the multiplexer. -/
inductive HbAction where
  | sendNop
  | flush
  | deliver (item : Except Error Response)
  deriving Repr

/-- Outcome of one `poll_next` call (with an always-ready inner sink the
call never returns `Pending`). -/
inductive PollNext where
  | item (r : Except Error Response)
  | closed
  | panics
  deriving Repr

/-- `Heartbeat::start_pong`: sends one `Nop` per pending heartbeat reply
and moves to `Responding`. -/
def start_pong (s : HbState) : List HbAction × HbState :=
  (List.replicate s.response_remaining HbAction.sendNop,
   { response_remaining := 0, status := .Responding })

/-- `Heartbeat::poll_pong`: flushes and moves back to `Reading`. -/
def poll_pong (s : HbState) : List HbAction × HbState :=
  ([HbAction.flush], { s with status := .Reading })

/-- The `loop` in `Heartbeat::poll_next`, reading decoded items from the
inner transport until one is returned to the caller.  A
`Response::Json` hits `unreachable!()`. -/
def hb_read_loop : HbState → List (Except Error NsqFramed) →
    List HbAction × PollNext × HbState × List (Except Error NsqFramed)
  | s, [] => ([], .closed, s, [])
  | s, .error e :: rest => ([], .item (.error e), s, rest)
  | s, .ok f :: rest =>
    match f with
    | .Response .Ok => ([], .item (.ok .Ok), s, rest)
    | .Response .Heartbeat =>
      let s1 : HbState := { s with response_remaining := s.response_remaining + 1 }
      let (a1, s2) := start_pong s1
      let (a2, s3) := poll_pong s2
      let (a3, out, s4, rest') := hb_read_loop s3 rest
      (a1 ++ a2 ++ a3, out, s4, rest')
    | .Response .CloseWait => ([], .closed, s, rest)
    | .Response (.Json _) => ([], .panics, s, rest)
    | .Message m => ([], .item (.ok (.Msg m)), s, rest)
    | .Error e =>
      if e.is_fatal then ([], .item (.error (.NsqErr e)), s, rest)
      else ([], .item (.ok (.Err e)), s, rest)

/-- One call to `Heartbeat::poll_next`: catch up on pending pongs, then
read from the inner transport. -/
def poll_next (s : HbState) (inbound : List (Except Error NsqFramed)) :
    List HbAction × PollNext × HbState × List (Except Error NsqFramed) :=
  let (acts1, s1) := if s.response_remaining > 0 then start_pong s else ([], s)
  let (acts2, s2) :=
    match s1.status with
    | .Responding => poll_pong s1
    | .Reading => ([], s1)
  let (acts3, out, s3, rest) := hb_read_loop s2 inbound
  (acts1 ++ acts2 ++ acts3, out, s3, rest)

/-- How a run of the multiplexer ends. -/
inductive RunEnd where
  | closed
  | panicked
  | fuelOut
  deriving Repr

/-- Drive `poll_next` repeatedly, as the caller of the stream does,
collecting the action trace.  `fuel` bounds the number of calls; each
item-returning call consumes at least one inbound element, so
`inbound.length + 1` fuel always suffices. -/
def runFrom : Nat → HbState → List (Except Error NsqFramed) → List HbAction × RunEnd
  | 0, _, _ => ([], .fuelOut)
  | fuel + 1, s, inbound =>
    match poll_next s inbound with
    | (acts, .closed, _, _) => (acts, .closed)
    | (acts, .panics, _, _) => (acts, .panicked)
    | (acts, .item r, s', rest) =>
      let (acts', e) := runFrom fuel s' rest
      (acts ++ HbAction.deliver r :: acts', e)

/-- A full run of the heartbeat multiplexer over an inbound sequence,
starting from the `Heartbeat::new` state. -/
def runHeartbeat (inbound : List (Except Error NsqFramed)) : List HbAction × RunEnd :=
  runFrom (inbound.length + 1) HbState.init inbound

/-- The actions the multiplexer performs for one inbound frame: the
specification-side normal form the run trace is compared against. -/
def frameActions : NsqFramed → List HbAction
  | .Response .Ok => [.deliver (.ok .Ok)]
  | .Response .Heartbeat => [.sendNop, .flush]
  | .Response .CloseWait => []
  | .Response (.Json _) => []
  | .Message m => [.deliver (.ok (.Msg m))]
  | .Error e =>
    if e.is_fatal then [.deliver (.error (.NsqErr e))]
    else [.deliver (.ok (.Err e))]

def HbAction.isSendNop : HbAction → Bool
  | .sendNop => true
  | _ => false

def NsqFramed.isHeartbeat : NsqFramed → Bool
  | .Response .Heartbeat => true
  | _ => false

def NsqFramed.isJson : NsqFramed → Bool
  | .Response (.Json _) => true
  | _ => false

def NsqFramed.isCloseWait : NsqFramed → Bool
  | .Response .CloseWait => true
  | _ => false

/-! ## Configuration (`src/config.rs`) -/

/-- `std::time::Duration`: seconds and a sub-second nanosecond part. -/
structure Duration where
  secs : Nat
  nanos : Nat
  deriving Repr

/-- `Duration::as_millis` (a `u128`; no truncation can occur here). -/
def Duration.as_millis (d : Duration) : Nat :=
  d.secs * 1000 + d.nanos / 1000000

/-- `TlsConfig` -/
structure TlsConfig where
  domain : String
  root_ca_file : Option String
  cert_file : Option String
  key_file : Option String
  insecure_skip_verify : Bool
  deriving Repr

/-- `Compress` -/
inductive Compress where
  | Disabled
  | Snappy
  | Deflate (level : Nat)
  deriving Repr

/-- `Config` -/
structure Config where
  client_id : String
  hostname : String
  user_agent : String
  tls_v1 : Option TlsConfig
  compress : Compress
  heartbeat_interval : Duration
  max_attempts : Nat
  max_in_flight : Nat
  output_buffer_size : Nat
  output_buffer_timeout : Duration
  msg_timeout : Duration
  sample_rate : Nat
  auth_secret : Option String
  feature_negotiation : Bool
  deriving Repr

/-- The serializer attached by `#[serde(serialize_with = "duration_to_ms")]`:
`serialize_u64(duration.as_millis() as u64)`. -/
def duration_to_ms (d : Duration) : JsonValue :=
  .num (Int.ofNat (d.as_millis % 2 ^ 64))

/-- `serialize_tls`: a single boolean, true iff a `TlsConfig` is present. -/
def serialize_tls (tls_config : Option TlsConfig) : JsonValue :=
  .bool tls_config.isSome

/-- `serialize_compress`: the map entries contributed by the flattened
`compress` field. -/
def serialize_compress : Compress → List (String × JsonValue)
  | .Disabled => [("snappy", .bool false), ("deflate", .bool false)]
  | .Snappy => [("snappy", .bool true)]
  | .Deflate level => [("deflate", .bool true), ("deflate_level", .num (Int.ofNat level))]

/-- `serde_json::to_value(config)`: the derived `Serialize` for `Config`
walks the fields in declaration order, applying the field attributes:
`tls_v1` through `serialize_tls`, `compress` flattened through
`serialize_compress`, the three durations through `duration_to_ms`, and
`auth_secret` skipped (`#[serde(skip_serializing)]`). -/
def Config.to_value (c : Config) : JsonValue :=
  .obj
    ([("client_id", .str c.client_id),
      ("hostname", .str c.hostname),
      ("user_agent", .str c.user_agent),
      ("tls_v1", serialize_tls c.tls_v1)]
      ++ serialize_compress c.compress ++
     [("heartbeat_interval", duration_to_ms c.heartbeat_interval),
      ("max_attempts", .num (Int.ofNat c.max_attempts)),
      ("max_in_flight", .num (Int.ofNat c.max_in_flight)),
      ("output_buffer_size", .num (Int.ofNat c.output_buffer_size)),
      ("output_buffer_timeout", duration_to_ms c.output_buffer_timeout),
      ("msg_timeout", duration_to_ms c.msg_timeout),
      ("sample_rate", .num (Int.ofNat c.sample_rate)),
      ("feature_negotiation", .bool c.feature_negotiation)])

/-- `Config::identify`: `Command::Identify(serde_json::to_value(self))`. -/
def Config.identify (c : Config) : Command :=
  Command.Identify c.to_value

/-! ## Deserialization helpers (`serde_json::from_value`) -/

def JsonValue.asBool : JsonValue → Except Error Bool
  | .bool b => .ok b
  | _ => .error .JsonError

def JsonValue.asString : JsonValue → Except Error String
  | .str s => .ok s
  | _ => .error .JsonError

/-- A signed 64-bit integer field. -/
def JsonValue.asI64 : JsonValue → Except Error Int
  | .num n => if -(2 ^ 63) ≤ n && n < 2 ^ 63 then .ok n else .error .JsonError
  | _ => .error .JsonError

/-- A signed 32-bit integer field. -/
def JsonValue.asI32 : JsonValue → Except Error Int
  | .num n => if -(2 ^ 31) ≤ n && n < 2 ^ 31 then .ok n else .error .JsonError
  | _ => .error .JsonError

/-- An unsigned integer field of width `w` bits. -/
def JsonValue.asUInt (w : Nat) : JsonValue → Except Error Nat
  | .num n => if 0 ≤ n && n < (2 ^ w : Int) then .ok n.toNat else .error .JsonError
  | _ => .error .JsonError

/-- A required field of a JSON object (missing field ⇒ `serde` error). -/
def getf (v : JsonValue) (k : String) : Except Error JsonValue :=
  match v.getField k with
  | some x => .ok x
  | none => .error .JsonError

/-! ## IDENTIFY handshake (`src/conn/connection.rs`) -/

/-- `IdentifyResponse` -/
structure IdentifyResponse where
  max_rdy_count : Int
  auth_required : Bool
  deflate : Bool
  deflate_level : Nat
  max_deflate_level : Nat
  max_msg_timeout : Nat
  msg_timeout : Nat
  output_buffer_size : Int
  output_buffer_timeout : Nat
  sample_rate : Int
  snappy : Bool
  tls_v1 : Bool
  version : String
  deriving Repr

/-- `serde_json::from_value::<IdentifyResponse>`: every field is
required, with the field types of the struct. -/
def IdentifyResponse.from_value (v : JsonValue) : Except Error IdentifyResponse := do
  let max_rdy_count ← (← getf v "max_rdy_count").asI64
  let auth_required ← (← getf v "auth_required").asBool
  let deflate ← (← getf v "deflate").asBool
  let deflate_level ← (← getf v "deflate_level").asUInt 32
  let max_deflate_level ← (← getf v "max_deflate_level").asUInt 64
  let max_msg_timeout ← (← getf v "max_msg_timeout").asUInt 64
  let msg_timeout ← (← getf v "msg_timeout").asUInt 64
  let output_buffer_size ← (← getf v "output_buffer_size").asI64
  let output_buffer_timeout ← (← getf v "output_buffer_timeout").asUInt 64
  let sample_rate ← (← getf v "sample_rate").asI32
  let snappy ← (← getf v "snappy").asBool
  let tls_v1 ← (← getf v "tls_v1").asBool
  let version ← (← getf v "version").asString
  pure { max_rdy_count, auth_required, deflate, deflate_level,
         max_deflate_level, max_msg_timeout, msg_timeout,
         output_buffer_size, output_buffer_timeout, sample_rate,
         snappy, tls_v1, version }

/-- Outcome of handling the one frame read after V2+IDENTIFY. -/
inductive HandshakeOutcome where
  | proceed (idres : IdentifyResponse)
  | fail (e : Error)
  | panics
  deriving Repr

/-- The `match response` over the IDENTIFY reply in `connect`
(`src/conn/connection.rs`): `Ok` and `Message` hit `unreachable!()`;
`Heartbeat`, `CloseWait` and `Error` return `UnexpectedEof`; `Json` is
parsed into an `IdentifyResponse`. -/
def handle_identify_response : NsqFramed → HandshakeOutcome
  | .Response .Ok => .panics
  | .Response (.Json value) =>
    match IdentifyResponse.from_value value with
    | .ok idres => .proceed idres
    | .error e => .fail e
  | .Response .Heartbeat => .fail unexpectedEof
  | .Response .CloseWait => .fail unexpectedEof
  | .Message _ => .panics
  | .Error _ => .fail unexpectedEof

/-! ## Transport assembly (`connect`, after the IDENTIFY reply)

`connect` wraps the socket in Snappy when `identify.snappy`, else in
Deflate when `identify.deflate`; the TLS branch present in older
revisions is commented out, and `conn/tls.rs::upgrade_tls` is `todo!()`
and never called, so no TLS layer is ever installed. -/

inductive TransportLayer where
  | Tls
  | Snappy
  | Deflate (level : Nat)
  deriving Repr

/-- The layers `connect` stacks on the TCP socket (innermost first),
as a function of the parsed `IdentifyResponse`. -/
def connect_layers (identify : IdentifyResponse) : List TransportLayer :=
  if identify.snappy then [.Snappy]
  else if identify.deflate then [.Deflate identify.deflate_level]
  else []

def TransportLayer.isTls : TransportLayer → Bool
  | .Tls => true
  | _ => false

/-- Whether a transport stack contains a TLS layer. -/
def usesTls (layers : List TransportLayer) : Bool :=
  layers.any TransportLayer.isTls

/-! ## AUTH (`src/conn/connection.rs::auth`) -/

/-- `AuthResponse` -/
structure AuthResponse where
  identify : String
  identify_url : Option String
  permission_count : Int
  deriving Repr

/-- `serde_json::from_value::<AuthResponse>`: `identify` and
`permission_count` are required; `identify_url : Option<String>`
defaults to `None` when missing or null. -/
def AuthResponse.from_value (v : JsonValue) : Except Error AuthResponse := do
  let identify ← (← getf v "identify").asString
  let identify_url ←
    match v.getField "identify_url" with
    | none => pure (Option.none (α := String))
    | some .null => pure none
    | some (.str s) => pure (some s)
    | some _ => Except.error Error.JsonError
  let permission_count ← (← getf v "permission_count").asI64
  pure { identify, identify_url, permission_count }

inductive AuthOutcome where
  | success (r : AuthResponse)
  | failure (e : Error)
  | panics
  deriving Repr

/-- `auth`: require `config.auth_secret` (else `Auth("Required auth
secret")` with no command sent), send `Auth(secret)` and handle the one
frame read in reply: `Json` parsed into an `AuthResponse`, `Error`
propagated, anything else `unreachable!()`, end of stream
`UnexpectedEof`.  (The source passes the secret `String` to
`Command::Auth`, whose payload type is `Vec<u8>`; the embedding takes
its UTF-8 bytes.)  Returns the commands sent and the outcome. -/
def auth (config : Config) (inbound : Option (Except Error NsqFramed)) :
    List Command × AuthOutcome :=
  match config.auth_secret with
  | none => ([], .failure (.Auth "Required auth secret"))
  | some secret =>
    ([Command.Auth (strBytes secret)],
     match inbound with
     | none => .failure unexpectedEof
     | some (.error e) => .failure e
     | some (.ok (.Response (.Json value))) =>
       match AuthResponse.from_value value with
       | .ok r => .success r
       | .error e => .failure e
     | some (.ok (.Error e)) => .failure (.NsqErr e)
     | some (.ok _) => .panics)

/-! ## Producer (`src/producer.rs`) -/

inductive PublishOutcome where
  | success
  | failure (e : Error)
  | panics
  deriving Repr

/-- `Producer::response`, applied to what `Connection::receive` yields:
`None` from the stream becomes `UnexpectedEof`, a stream error is
returned, `Response::Ok` succeeds, `Response::Err(e)` becomes
`Error::NsqError(e)`, and `Response::Msg(_)` hits `unreachable!()`. -/
def Producer.response : Option (Except Error Response) → PublishOutcome
  | none => .failure unexpectedEof
  | some (.error e) => .failure e
  | some (.ok .Ok) => .success
  | some (.ok (.Err e)) => .failure (.NsqErr e)
  | some (.ok (.Msg _)) => .panics

/-- `Producer::publish`: send `Pub(topic, msg)`, then `response()` on
the single awaited inbound item.  Returns the commands sent and the
outcome. -/
def Producer.publish (topic : String) (msg : MessageBody)
    (inbound : Option (Except Error Response)) : List Command × PublishOutcome :=
  ([Command.Pub topic msg], Producer.response inbound)

/-! ## Derived notions used by the statements -/

/-- The caller-visible item the multiplexer produces for one non-heartbeat
frame (heartbeats, `CloseWait` and `Json` produce no item; the catch-all
arm is irrelevant under those side conditions). -/
def frameItem : NsqFramed → Except Error Response
  | .Response .Ok => .ok .Ok
  | .Message m => .ok (.Msg m)
  | .Error e => if e.is_fatal then .error (.NsqErr e) else .ok (.Err e)
  | _ => .ok .Ok

/-! ## Concrete example values -/

/-- A sample decoded message. -/
def exMsg : NsqMsg :=
  { timestamp := 0, attempts := 0, message_id := List.replicate 16 48, body := [104, 105] }

/-- The inbound sequence `[Heartbeat, Msg(m), Heartbeat, Ok]` from the
specification's heartbeat test. -/
def exInbound : List NsqFramed :=
  [.Response .Heartbeat, .Message exMsg, .Response .Heartbeat, .Response .Ok]

/-- A complete IDENTIFY response JSON document. -/
def exIdentifyJson : JsonValue :=
  .obj [("max_rdy_count", .num 2500), ("auth_required", .bool false),
        ("deflate", .bool false), ("deflate_level", .num 6),
        ("max_deflate_level", .num 6), ("max_msg_timeout", .num 900000),
        ("msg_timeout", .num 60000), ("output_buffer_size", .num 16384),
        ("output_buffer_timeout", .num 250), ("sample_rate", .num 0),
        ("snappy", .bool false), ("tls_v1", .bool false),
        ("version", .str "1.2.1")]

/-- The parse of `exIdentifyJson`. -/
def exIdentify : IdentifyResponse :=
  { max_rdy_count := 2500, auth_required := false, deflate := false,
    deflate_level := 6, max_deflate_level := 6, max_msg_timeout := 900000,
    msg_timeout := 60000, output_buffer_size := 16384,
    output_buffer_timeout := 250, sample_rate := 0, snappy := false,
    tls_v1 := false, version := "1.2.1" }

/-- An IDENTIFY response advertising TLS and no compression. -/
def exTlsIdentify : IdentifyResponse :=
  { exIdentify with tls_v1 := true }

/-- A configuration with an auth secret set (other fields are the
`Config::default` values, with TLS settings present). -/
def exConfigSecret : Config :=
  { client_id := "nsq_in_rust", hostname := "localhost",
    user_agent := "nsq-rust/0.1.0",
    tls_v1 := some { domain := "nsq.example", root_ca_file := some "ca.pem",
                     cert_file := some "cert.pem", key_file := some "key.pem",
                     insecure_skip_verify := false },
    compress := .Disabled,
    heartbeat_interval := { secs := 30, nanos := 0 },
    max_attempts := 5, max_in_flight := 8, output_buffer_size := 16384,
    output_buffer_timeout := { secs := 0, nanos := 250000000 },
    msg_timeout := { secs := 5, nanos := 0 }, sample_rate := 0,
    auth_secret := some "s", feature_negotiation := true }

/-- The same configuration without an auth secret. -/
def exConfigNoSecret : Config :=
  { exConfigSecret with auth_secret := none }

/-- A sample AUTH response JSON document. -/
def exAuthJson : JsonValue :=
  .obj [("identify", .str "v1"), ("permission_count", .num 1)]

/-- The parse of `exAuthJson`. -/
def exAuthResponse : AuthResponse :=
  { identify := "v1", identify_url := none, permission_count := 1 }

/-- A 26-byte message payload whose 16 id bytes are not valid UTF-8. -/
def c10CounterBuf : List Nat :=
  List.replicate 10 0 ++ List.replicate 16 255

/-- A message payload with an ASCII id and a 2-byte body. -/
def c10WitnessBuf : List Nat :=
  List.replicate 10 0 ++ List.replicate 16 65 ++ [104, 105]


/-! # Theorems -/

/-! ## C1: MPUB encoding -/

/-- C1 (failing-input evaluation): encoding `Mpub("t", ["a", "b"])`
produces the `MPUB t\n` header, then a big-endian 4-byte total-body-length
field encoding 18 (the fold over the messages is seeded with 8), then the
count 2 and the two size-prefixed messages — whereas
`4 + Σ(4 + len(m)) = 14` for these messages.  The claim's value 14 (the
NSQ wire format's body size) is not what the code writes. -/
theorem mpub_encode_total_body_len_c1 :
    NsqCodec.encode (Command.Mpub "t" [[97], [98]]) =
      strBytes "MPUB t\n" ++
        [0, 0, 0, 18] ++ [0, 0, 0, 2] ++ [0, 0, 0, 1] ++ [97] ++ [0, 0, 0, 1] ++ [98]
    ∧ (4 + ((4 + 1) + (4 + 1)) : Nat) = 14 := by
  exact ⟨by decide, rfl⟩

/-! ## C5: `Response::Json` in the connected phase -/

/-- C5 (counterexample): a `Response::Json` frame received by the
heartbeat multiplexer in the connected phase makes `poll_next` hit
`unreachable!()` — the outcome is a panic, not a delivered protocol
error. -/
theorem heartbeat_json_counterexample_c5 :
    poll_next HbState.init [.ok (.Response (.Json .null))] =
      ([], .panics, HbState.init, []) := rfl

/-- C5 (amended): for every JSON value and every remaining inbound
sequence, a `Response::Json` frame at the head makes the multiplexer
panic (`unreachable!()` in `Heartbeat::poll_next`) instead of delivering
an error or an item. -/
theorem heartbeat_json_panics_c5 (v : JsonValue) (rest : List (Except Error NsqFramed)) :
    poll_next HbState.init (.ok (.Response (.Json v)) :: rest) =
      ([], .panics, HbState.init, rest) := rfl

/-! ## C7: `Producer::publish` -/

/-- C7 (counterexample): when the single awaited inbound item is a
`Message`, `Producer::publish` hits `unreachable!()` — it panics rather
than returning a protocol error. -/
theorem publish_msg_counterexample_c7 :
    Producer.publish "topic" [104, 105] (some (.ok (.Msg exMsg))) =
      ([Command.Pub "topic" [104, 105]], .panics) := rfl

/-- C7 (amended): `publish(topic, msg)` sends exactly `Pub(topic, msg)`
and awaits one inbound item: `Ok` succeeds, `Err(e)` returns
`Error::NsqError(e)`, a stream error is returned as is, end of stream is
`UnexpectedEof`, and a `Message` panics (`unreachable!()`). -/
theorem publish_dispatch_c7 (topic : String) (msg : MessageBody) :
    (∀ inbound, (Producer.publish topic msg inbound).1 = [Command.Pub topic msg]) ∧
    (Producer.publish topic msg (some (.ok .Ok))).2 = .success ∧
    (∀ e, (Producer.publish topic msg (some (.ok (.Err e)))).2 = .failure (.NsqErr e)) ∧
    (∀ e, (Producer.publish topic msg (some (.error e))).2 = .failure e) ∧
    (Producer.publish topic msg none).2 = .failure unexpectedEof ∧
    (∀ m, (Producer.publish topic msg (some (.ok (.Msg m)))).2 = .panics) :=
  ⟨fun _ => rfl, rfl, fun _ => rfl, fun _ => rfl, rfl, fun _ => rfl⟩

/-! ## C3: TLS upgrade during connect -/

/-- C3 (failing-input evaluation): `connect` never installs a TLS layer.
For every parsed `IdentifyResponse` the assembled transport stack
contains no TLS layer, and in particular for a server advertising
`tls_v1 = true` (with no compression) the stack is the bare socket: the
TLS branch of `connect` is commented out and
`conn/tls.rs::upgrade_tls` is `todo!()` and never called, so the
configured certificates, CA roots and skip-verify flag are never
honored. -/
theorem connect_no_tls_c3 :
    (∀ identify : IdentifyResponse, usesTls (connect_layers identify) = false) ∧
    connect_layers exTlsIdentify = [] := by
  constructor
  · intro identify
    unfold connect_layers
    split
    · rfl
    · split <;> rfl
  · rfl

/-! ## C10: `decode_message` totality -/

/-- C10 (counterexample): a 26-byte `Message` payload whose 16 id bytes
are `0xFF` satisfies the claim's length precondition, yet
`decode_message` returns a `Utf8` error (from `str::from_utf8`) rather
than an `NsqMsg`. -/
theorem decode_message_invalid_id_counterexample_c10 :
    decode_message c10CounterBuf = some (.error .Utf8Error) := rfl

/-- C10 (amended): on a payload of at least 26 bytes `decode_message`
does not panic: it returns the `NsqMsg` whose body is exactly the bytes
after the 16-byte id when those id bytes are valid UTF-8, and a `Utf8`
error otherwise; on any shorter payload the unchecked `get_u64` /
`get_u16` / `split_at` panic. -/
theorem decode_message_amended_c10 (buf : List Nat) :
    (26 ≤ buf.length →
      decode_message buf =
        some (if utf8Valid ((buf.drop 10).take 16) = true then
                Except.ok { timestamp := beVal (buf.take 8),
                            attempts := beVal ((buf.drop 8).take 2),
                            message_id := (buf.drop 10).take 16,
                            body := buf.drop 26 }
              else Except.error Error.Utf8Error)) ∧
    (buf.length < 26 → decode_message buf = none) := by
  constructor
  · intro h
    unfold decode_message
    rw [if_neg (by omega), if_neg (by simp; omega),
        if_neg (by simp [MESSAGE_ID_LEN]; omega)]
    simp only [MESSAGE_ID_LEN, List.drop_drop]
    norm_num
    split <;> rfl
  · intro h
    unfold decode_message
    rcases Nat.lt_or_ge buf.length 8 with h8 | h8
    · rw [if_pos h8]
    · rw [if_neg (by omega)]
      rcases Nat.lt_or_ge buf.length 10 with h10 | h10
      · rw [if_pos (by simp; omega)]
      · rw [if_neg (by simp; omega), if_pos (by simp [MESSAGE_ID_LEN]; omega)]

/-- C10 (witness): the amended theorem at a concrete 28-byte payload
with an ASCII id: decoding succeeds and the body is the 2 bytes after
the id. -/
theorem decode_message_amended_c10_witness :
    (26 ≤ c10WitnessBuf.length) ∧
    decode_message c10WitnessBuf =
      some (.ok { timestamp := 0, attempts := 0,
                  message_id := List.replicate 16 65, body := [104, 105] }) := by
  refine ⟨by decide, ?_⟩
  have h := (decode_message_amended_c10 c10WitnessBuf).1 (by decide)
  rw [h]
  rfl

/-! ## C9: IDENTIFY JSON serialization of `Config` -/

/-- C9: serializing a `Config` to IDENTIFY JSON renders each duration
field as its integer number of milliseconds, renders `tls_v1` as the
single boolean `true` iff a `TlsConfig` is present, renders the
compression mode as `{snappy:true}` for Snappy, as
`{deflate:true, deflate_level:N}` for Deflate, and as both `snappy:false`
and `deflate:false` when disabled, and never includes the `auth_secret`
field. -/
theorem config_identify_json_c9 (c : Config) :
    c.to_value.getField "heartbeat_interval"
        = some (.num (Int.ofNat (c.heartbeat_interval.as_millis % 2 ^ 64))) ∧
    c.to_value.getField "output_buffer_timeout"
        = some (.num (Int.ofNat (c.output_buffer_timeout.as_millis % 2 ^ 64))) ∧
    c.to_value.getField "msg_timeout"
        = some (.num (Int.ofNat (c.msg_timeout.as_millis % 2 ^ 64))) ∧
    c.to_value.getField "tls_v1" = some (.bool c.tls_v1.isSome) ∧
    c.to_value.getField "snappy"
        = (match c.compress with
           | .Disabled => some (.bool false)
           | .Snappy => some (.bool true)
           | .Deflate _ => none) ∧
    c.to_value.getField "deflate"
        = (match c.compress with
           | .Disabled => some (.bool false)
           | .Snappy => none
           | .Deflate _ => some (.bool true)) ∧
    c.to_value.getField "deflate_level"
        = (match c.compress with
           | .Deflate level => some (.num (Int.ofNat level))
           | _ => none) ∧
    c.to_value.getField "auth_secret" = none := by
  rcases c with ⟨cid, host, ua, tls, compress, hb, ma, mif, obs, obt, mt, sr, sec, fn⟩
  cases compress <;>
    exact ⟨rfl, rfl, rfl, rfl, rfl, rfl, rfl, rfl⟩

/-! ## C6: `is_fatal` and error-frame routing -/

/-- C6: `NsqError::is_fatal` is false exactly on the codes
`E_FIN_FAILED`, `E_REQ_FAILED` and `E_TOUCH_FAILED`; and an `Error`
frame received by the heartbeat multiplexer in the connected phase is
delivered as an in-stream `Err(e)` value when non-fatal, and as a stream
error (`Some(Err(_))` on the stream, ending its use) when fatal. -/
theorem is_fatal_and_error_routing_c6 :
    (∀ e : NsqError, e.is_fatal = false ↔
        (e.code = "E_FIN_FAILED" ∨ e.code = "E_REQ_FAILED" ∨ e.code = "E_TOUCH_FAILED")) ∧
    (∀ (e : NsqError) (rest : List (Except Error NsqFramed)),
        poll_next HbState.init (.ok (.Error e) :: rest) =
          ([], .item (if e.is_fatal then .error (.NsqErr e) else .ok (.Err e)),
           HbState.init, rest)) := by
  constructor
  · intro e
    rcases e with ⟨code, description⟩
    simp only [NsqError.is_fatal]
    split
    · decide
    · decide
    · decide
    · rename_i h1 h2 h3
      constructor
      · intro hab
        exact Bool.noConfusion hab
      · rintro (h | h | h)
        · exact (h1 h).elim
        · exact (h2 h).elim
        · exact (h3 h).elim
  · intro e rest
    cases hf : e.is_fatal <;>
      simp [poll_next, hb_read_loop, start_pong, poll_pong, HbState.init, hf]

/-! ## C2: IDENTIFY reply dispatch in `connect` -/

/-- C2 (counterexample): during connect, after V2 and IDENTIFY, a
`Response::Ok` reply (the `feature_negotiation = false` path) makes the
handshake hit `unreachable!()` — a panic, not a proceed-with-defaults —
and a `Message` frame likewise panics instead of failing with a protocol
error. -/
theorem connect_identify_ok_counterexample_c2 :
    handle_identify_response (.Response .Ok) = .panics ∧
    handle_identify_response (.Message exMsg) = .panics := ⟨rfl, rfl⟩

/-- C2 (amended): the one frame read after V2+IDENTIFY is handled as:
`Response::Json` parsed into an `IdentifyResponse` (proceeding on
success and failing with the JSON error otherwise); `Heartbeat`,
`CloseWait` and `Error` make connect return an `UnexpectedEof` error;
and `Response::Ok` and `Message` make connect panic (`unreachable!()`). -/
theorem connect_identify_dispatch_c2 :
    (∀ v idres, IdentifyResponse.from_value v = .ok idres →
        handle_identify_response (.Response (.Json v)) = .proceed idres) ∧
    (∀ v e, IdentifyResponse.from_value v = .error e →
        handle_identify_response (.Response (.Json v)) = .fail e) ∧
    handle_identify_response (.Response .Heartbeat) = .fail unexpectedEof ∧
    handle_identify_response (.Response .CloseWait) = .fail unexpectedEof ∧
    (∀ e, handle_identify_response (.Error e) = .fail unexpectedEof) ∧
    handle_identify_response (.Response .Ok) = .panics ∧
    (∀ m, handle_identify_response (.Message m) = .panics) := by
  refine ⟨?_, ?_, rfl, rfl, fun _ => rfl, rfl, fun _ => rfl⟩
  · intro v idres h
    simp [handle_identify_response, h]
  · intro v e h
    simp [handle_identify_response, h]

/-- C2 (witness): the dispatch theorem applied to a concrete complete
IDENTIFY response document, which parses and proceeds. -/
theorem connect_identify_dispatch_c2_witness :
    IdentifyResponse.from_value exIdentifyJson = .ok exIdentify ∧
    handle_identify_response (.Response (.Json exIdentifyJson)) = .proceed exIdentify := by
  have h : IdentifyResponse.from_value exIdentifyJson = .ok exIdentify := rfl
  exact ⟨h, connect_identify_dispatch_c2.1 exIdentifyJson exIdentify h⟩

/-! ## C8: AUTH -/

/-- C8 (counterexample): with a secret configured, an AUTH reply frame
that is neither `Response::Json` nor `Error` — here a plain
`Response::Ok` — makes `auth` hit `unreachable!()`: a panic, not a
protocol error. -/
theorem auth_ok_counterexample_c8 :
    auth exConfigSecret (some (.ok (.Response .Ok))) =
      ([Command.Auth (strBytes "s")], .panics) := rfl

/-- C8 (amended): when the server requires auth, a missing
`config.auth_secret` fails with `Auth("Required auth secret")` before
any command is sent; with a secret present, `Auth(secret)` is sent and
the one reply frame is handled as: `Response::Json` parsed into an
`AuthResponse` (failing with the JSON error if parsing fails), `Error`
propagated as `Error::NsqError`, end of stream `UnexpectedEof`, and any
other frame a panic (`unreachable!()`). -/
theorem auth_dispatch_c8 :
    (∀ c : Config, c.auth_secret = none →
        ∀ inbound, auth c inbound = ([], .failure (.Auth "Required auth secret"))) ∧
    (∀ (c : Config) (secret : String), c.auth_secret = some secret →
        (∀ inbound, (auth c inbound).1 = [Command.Auth (strBytes secret)]) ∧
        (∀ v r, AuthResponse.from_value v = .ok r →
            (auth c (some (.ok (.Response (.Json v))))).2 = .success r) ∧
        (∀ v e, AuthResponse.from_value v = .error e →
            (auth c (some (.ok (.Response (.Json v))))).2 = .failure e) ∧
        (∀ e, (auth c (some (.ok (.Error e)))).2 = .failure (.NsqErr e)) ∧
        (auth c none).2 = .failure unexpectedEof ∧
        (∀ e, (auth c (some (.error e))).2 = .failure e) ∧
        (auth c (some (.ok (.Response .Ok)))).2 = .panics ∧
        (auth c (some (.ok (.Response .Heartbeat)))).2 = .panics ∧
        (auth c (some (.ok (.Response .CloseWait)))).2 = .panics ∧
        (∀ m, (auth c (some (.ok (.Message m)))).2 = .panics)) := by
  constructor
  · intro c hc inbound
    simp [auth, hc]
  · intro c secret hc
    refine ⟨fun inbound => ?_, fun v r h => ?_, fun v e h => ?_,
            fun e => ?_, ?_, fun e => ?_, ?_, ?_, ?_, fun m => ?_⟩ <;>
      simp [auth, hc]
    · simp [h]
    · simp [h]

/-- C8 (witness): the dispatch theorem applied to concrete
configurations: the secretless config fails with the `Auth` error, and
the config with secret `"s"` parses a concrete AUTH reply document. -/
theorem auth_dispatch_c8_witness :
    auth exConfigNoSecret none = ([], .failure (.Auth "Required auth secret")) ∧
    (auth exConfigSecret (some (.ok (.Response (.Json exAuthJson))))).2 =
      .success exAuthResponse := by
  constructor
  · exact auth_dispatch_c8.1 exConfigNoSecret rfl none
  · exact (auth_dispatch_c8.2 exConfigSecret "s" rfl).2.1 exAuthJson exAuthResponse rfl

/-! ## C4: heartbeat multiplexer trace -/

/-- From the `Heartbeat::new` state there are no pending pongs and the
status is `Reading`, so `poll_next` goes straight to the read loop. -/
theorem poll_next_init (l : List (Except Error NsqFramed)) :
    poll_next HbState.init l = hb_read_loop HbState.init l := rfl

/-- A heartbeat at the head of the inbound queue: the read loop sends
one `Nop`, flushes, and continues from the initial state. -/
theorem hb_read_loop_cons_hb (l : List (Except Error NsqFramed)) :
    hb_read_loop HbState.init (.ok (.Response .Heartbeat) :: l) =
      (([.sendNop, .flush] : List HbAction) ++ (hb_read_loop HbState.init l).1,
       (hb_read_loop HbState.init l).2) := by
  cases h : hb_read_loop HbState.init l with
  | mk a r =>
    simp only [HbState.init] at h
    simp [hb_read_loop, start_pong, poll_pong, HbState.init, h]

/-- A non-heartbeat, non-`Json`, non-`CloseWait` frame at the head is
returned to the caller at once, leaving the state unchanged. -/
theorem hb_read_loop_cons_item (f : NsqFramed) (l : List (Except Error NsqFramed))
    (hh : f.isHeartbeat = false) (hj : f.isJson = false) (hc : f.isCloseWait = false) :
    hb_read_loop HbState.init (.ok f :: l) =
      ([], .item (frameItem f), HbState.init, l) := by
  cases f with
  | Response r =>
    cases r with
    | Ok => rfl
    | Heartbeat => simp [NsqFramed.isHeartbeat] at hh
    | CloseWait => simp [NsqFramed.isCloseWait] at hc
    | Json v => simp [NsqFramed.isJson] at hj
  | Message m => rfl
  | Error e =>
    by_cases hf : e.is_fatal <;> simp [hb_read_loop, frameItem, hf]

/-- For a non-heartbeat, non-`Json`, non-`CloseWait` frame the per-frame
action list is a single delivery of its caller-visible item. -/
theorem frameActions_eq_deliver (f : NsqFramed)
    (hh : f.isHeartbeat = false) (hj : f.isJson = false) (hc : f.isCloseWait = false) :
    frameActions f = [.deliver (frameItem f)] := by
  cases f with
  | Response r =>
    cases r with
    | Ok => rfl
    | Heartbeat => simp [NsqFramed.isHeartbeat] at hh
    | CloseWait => simp [NsqFramed.isCloseWait] at hc
    | Json v => simp [NsqFramed.isJson] at hj
  | Message m => rfl
  | Error e =>
    by_cases hf : e.is_fatal <;> simp [frameActions, frameItem, hf]

/-- Prepending a heartbeat to the inbound queue prepends exactly one
`Nop` write and one flush to the run's trace and changes nothing else. -/
theorem runFrom_cons_hb (fuel : Nat) (l : List (Except Error NsqFramed)) :
    runFrom (fuel + 1) HbState.init (.ok (.Response .Heartbeat) :: l) =
      (([.sendNop, .flush] : List HbAction) ++ (runFrom (fuel + 1) HbState.init l).1,
       (runFrom (fuel + 1) HbState.init l).2) := by
  cases h : hb_read_loop HbState.init l with
  | mk a r =>
    obtain ⟨out, s', rest⟩ := r
    cases out with
    | closed =>
      simp [runFrom, poll_next_init, hb_read_loop_cons_hb, h]
    | panics =>
      simp [runFrom, poll_next_init, hb_read_loop_cons_hb, h]
    | item rr =>
      cases h2 : runFrom fuel s' rest with
      | mk acts e =>
        simp [runFrom, poll_next_init, hb_read_loop_cons_hb, h, h2]

/-- The run of the multiplexer over any inbound frame sequence without
`Json` or `CloseWait` frames, with enough fuel, produces exactly the
concatenation of the per-frame action lists and ends at end-of-stream. -/
theorem runFrom_spec (inbound : List NsqFramed) :
    ∀ fuel, inbound.length < fuel →
      (inbound.all fun f => !f.isJson && !f.isCloseWait) = true →
      runFrom fuel HbState.init (inbound.map Except.ok) =
        (inbound.flatMap frameActions, .closed) := by
  induction inbound with
  | nil =>
    intro fuel hf _
    cases fuel with
    | zero => omega
    | succ n => simp [runFrom, poll_next_init, hb_read_loop]
  | cons f l ih =>
    intro fuel hf hall
    cases fuel with
    | zero => omega
    | succ n =>
      simp only [List.all_cons, Bool.and_eq_true, Bool.not_eq_true'] at hall
      obtain ⟨⟨hj, hc⟩, hall⟩ := hall
      have hall' : (l.all fun f => !f.isJson && !f.isCloseWait) = true := by
        simp only [List.all_eq_true, Bool.and_eq_true, Bool.not_eq_true'] at hall ⊢
        exact hall
      cases hh : f.isHeartbeat with
      | true =>
        have hf2 : f = .Response .Heartbeat := by
          cases f with
          | Response r => cases r <;> simp_all [NsqFramed.isHeartbeat]
          | Message m => simp [NsqFramed.isHeartbeat] at hh
          | Error e => simp [NsqFramed.isHeartbeat] at hh
        subst hf2
        rw [List.map_cons, runFrom_cons_hb n]
        rw [ih (n + 1) (by simp at hf ⊢; omega) hall']
        simp [frameActions]
      | false =>
        have hstep : poll_next HbState.init (.ok f :: l.map Except.ok) =
            ([], .item (frameItem f), HbState.init, l.map Except.ok) := by
          rw [poll_next_init]
          exact hb_read_loop_cons_item f _ hh hj hc
        have ihl := ih n (by simp at hf ⊢; omega) hall'
        rw [List.map_cons]
        simp [runFrom, hstep, ihl, frameActions_eq_deliver f hh hj hc]

/-- One frame contributes one `Nop` write to the trace iff it is a
heartbeat. -/
theorem countP_sendNop_frameActions (f : NsqFramed) :
    (frameActions f).countP HbAction.isSendNop = if f.isHeartbeat then 1 else 0 := by
  cases f with
  | Response r => cases r <;> rfl
  | Message m => rfl
  | Error e => by_cases hf : e.is_fatal <;> simp [frameActions, hf, NsqFramed.isHeartbeat, List.countP_cons, HbAction.isSendNop]

/-- Nop count over the whole trace equals the heartbeat count of the
inbound sequence. -/
theorem countP_sendNop_flatMap (l : List NsqFramed) :
    (l.flatMap frameActions).countP HbAction.isSendNop =
      l.countP NsqFramed.isHeartbeat := by
  induction l with
  | nil => rfl
  | cons f l ih =>
    rw [List.flatMap_cons, List.countP_append, ih, List.countP_cons,
        countP_sendNop_frameActions]
    cases hf : f.isHeartbeat <;> simp [Nat.add_comm]

/-- C4: running the heartbeat multiplexer over any inbound frame
sequence (containing no `Json` and no `CloseWait` frame) produces
exactly the frame-by-frame trace `inbound.flatMap frameActions`: per
heartbeat exactly one `Nop` write followed by a flush, heartbeats never
delivered, every other frame delivered in arrival order, and — because
the trace is the in-order concatenation — the `Nop` and flush replying
to a heartbeat precede the delivery of every later frame.  The second
conjunct restates the Nop count explicitly. -/
theorem heartbeat_trace_c4 (inbound : List NsqFramed)
    (h : (inbound.all fun f => !f.isJson && !f.isCloseWait) = true) :
    runHeartbeat (inbound.map Except.ok) = (inbound.flatMap frameActions, .closed) ∧
    (runHeartbeat (inbound.map Except.ok)).1.countP HbAction.isSendNop =
      inbound.countP NsqFramed.isHeartbeat := by
  have hrun : runHeartbeat (inbound.map Except.ok) =
      (inbound.flatMap frameActions, .closed) := by
    unfold runHeartbeat
    rw [List.length_map]
    exact runFrom_spec inbound (inbound.length + 1) (by omega) h
  exact ⟨hrun, by rw [hrun]; exact countP_sendNop_flatMap inbound⟩

/-- C4 (witness): the specification's example `[Heartbeat, Msg(m),
Heartbeat, Ok]`: the caller observes `[Msg(m), Ok]`, exactly two `Nop`
commands are written, and each is flushed before the next caller-visible
frame is delivered. -/
theorem heartbeat_trace_c4_witness :
    runHeartbeat (exInbound.map Except.ok) =
      ([.sendNop, .flush, .deliver (.ok (.Msg exMsg)), .sendNop, .flush,
        .deliver (.ok .Ok)], .closed) ∧
    (runHeartbeat (exInbound.map Except.ok)).1.countP HbAction.isSendNop = 2 := by
  have h := heartbeat_trace_c4 exInbound (by rfl)
  refine ⟨?_, ?_⟩
  · rw [h.1]; rfl
  · rw [h.2]; rfl
